import Mathlib

/-!
Verification development for the LAPUP solar geometry library
(`lapup_solar_library.py` and `lapup_solar_library_class.py`).

The library computes sun-position quantities from a pandas timestamp
(local standard time) and a geographic position.  We embed the code
shallowly:

* a pandas `Timestamp` is an integer count of nanoseconds since the
  epoch 1970-01-01 00:00 (pandas stores exactly that in an `int64`);
  the calendar attributes `hour`, `minute`, `second`, `microsecond`
  and `dayofyear` that the code reads are derived here by integer
  arithmetic, with `dayofyear` computed through the proleptic
  Gregorian calendar (the calendar pandas uses);
* the float computations of the code are modelled over `ℝ`, with
  `numpy`'s `sin`/`cos`/`arccos`/`radians` as Mathlib's real
  `sin`/`cos`/`arccos` and multiplication by `π / 180`;
* Python's built-in `round` (used for the time zone) rounds halves to
  even; `pd.Timedelta(minutes = x)` stores `x` minutes rounded to a
  whole number of nanoseconds, which we model with `round (x * 6e10)`.
-/

/-! ### Timestamps (pandas `Timestamp` attribute model) -/

/-- A pandas timestamp: nanoseconds since 1970-01-01 00:00:00. -/
structure Timestamp where
  ns : ℤ
  deriving DecidableEq

namespace Timestamp

/-- Nanoseconds in a day. -/
def nsPerDay : ℤ := 86400000000000

/-- Day index since the epoch (floor division, as the calendar requires). -/
def day (t : Timestamp) : ℤ := t.ns / nsPerDay

/-- Nanosecond of the current day, in `[0, nsPerDay)`. -/
def nsOfDay (t : Timestamp) : ℤ := t.ns % nsPerDay

/-- The `hour` attribute, in `[0, 23]`. -/
def hour (t : Timestamp) : ℤ := t.nsOfDay / 3600000000000

/-- The `minute` attribute, in `[0, 59]`. -/
def minute (t : Timestamp) : ℤ := (t.nsOfDay / 60000000000) % 60

/-- The `second` attribute, in `[0, 59]`. -/
def second (t : Timestamp) : ℤ := (t.nsOfDay / 1000000000) % 60

/-- The `microsecond` attribute, in `[0, 999999]`. -/
def microsecond (t : Timestamp) : ℤ := (t.nsOfDay / 1000) % 1000000

/-- Proleptic Gregorian leap-year test. -/
def isLeap (y : ℤ) : Bool := (y % 4 == 0 && y % 100 != 0) || y % 400 == 0

/-- Days before the first of month `m` (1 = January) in a non-leap year. -/
def daysBeforeMonth (m : ℤ) : ℤ :=
  if m ≤ 1 then 0 else if m = 2 then 31 else if m = 3 then 59
  else if m = 4 then 90 else if m = 5 then 120 else if m = 6 then 151
  else if m = 7 then 181 else if m = 8 then 212 else if m = 9 then 243
  else if m = 10 then 273 else if m = 11 then 304 else 334

/-- Gregorian civil date `(year, month, day-of-month)` from a day index
relative to 1970-01-01 (Howard Hinnant's `civil_from_days` algorithm,
which is what calendar libraries, pandas included, implement). -/
def civilFromDays (z : ℤ) : ℤ × ℤ × ℤ :=
  let zs := z + 719468
  let era := zs / 146097
  let doe := zs - era * 146097
  let yoe := (doe - doe / 1460 + doe / 36524 - doe / 146096) / 365
  let doyM := doe - (365 * yoe + yoe / 4 - yoe / 100)
  let mp := (5 * doyM + 2) / 153
  let d := doyM - (153 * mp + 2) / 5 + 1
  let m := if mp < 10 then mp + 3 else mp - 9
  (yoe + era * 400 + (if m ≤ 2 then 1 else 0), m, d)

/-- The `dayofyear` attribute: 1-based ordinal date (Jan 1 = 1). -/
def dayofyear (t : Timestamp) : ℤ :=
  let c := civilFromDays t.day
  daysBeforeMonth c.2.1 + (if isLeap c.1 && 2 < c.2.1 then 1 else 0) + c.2.2

end Timestamp

/-! ### Real-valued helpers used by the library -/

open Real in
/-- Model of `np.radians`: degrees to radians. -/
noncomputable def radians (x : ℝ) : ℝ := x * π / 180

open Classical in
/-- Model of Python 3's built-in `round` on a real value: nearest
integer, halves to even. -/
noncomputable def pythonRound (x : ℝ) : ℤ :=
  if Int.fract x < 1 / 2 then ⌊x⌋
  else if 1 / 2 < Int.fract x then ⌊x⌋ + 1
  else if Even ⌊x⌋ then ⌊x⌋ else ⌊x⌋ + 1

/-- Model of `pd.Timedelta(minutes = m)`: the shift stored by pandas, as
a whole number of nanoseconds (nearest nanosecond to `m` minutes). -/
noncomputable def timedeltaNs (m : ℝ) : ℤ := round (m * 60000000000)

/-! ### The function library (`lapup_solar_library.py`) -/

open Real

/-- `fractional_year(datetime_object)`: the annual-cycle angle
`2π (dayofyear − 1 + (hour − 12)/24) / 365` (radians). -/
noncomputable def fractional_year (t : Timestamp) : ℝ :=
  2 * π * ((t.dayofyear : ℝ) - 1 + ((t.hour : ℝ) - 12) / 24) / 365

/-- `declination(datetime_object)`: Spencer's seven-term Fourier series
in the fractional year (radians). -/
noncomputable def declination (t : Timestamp) : ℝ :=
  0.006918 - 0.399912 * cos (fractional_year t) + 0.070257 * sin (fractional_year t)
    - 0.006758 * cos (2 * fractional_year t) + 0.000907 * sin (2 * fractional_year t)
    - 0.002697 * cos (3 * fractional_year t) + 0.00148 * sin (3 * fractional_year t)

/-- `equation_of_time(datetime_object)`: equation of time (minutes). -/
noncomputable def equation_of_time (t : Timestamp) : ℝ :=
  229.18 * (0.000075 + 0.001868 * cos (fractional_year t) - 0.032077 * sin (fractional_year t)
    - 0.014615 * cos (2 * fractional_year t) - 0.040849 * sin (2 * fractional_year t))

/-- The `timezone` local of `true_solar_time`: `round(longitude / 15) + 1`. -/
noncomputable def timezone (longitude : ℝ) : ℤ := pythonRound (longitude / 15) + 1

/-- The `time_offset` local of `true_solar_time` (minutes):
`equation_of_time + 4·longitude − 60·timezone`. -/
noncomputable def time_offset (t : Timestamp) (longitude : ℝ) : ℝ :=
  equation_of_time t + 4 * longitude - 60 * (timezone longitude : ℝ)

/-- `true_solar_time(datetime_object, longitude)`:
`datetime_object + pd.Timedelta(minutes = time_offset)`. -/
noncomputable def true_solar_time (t : Timestamp) (longitude : ℝ) : Timestamp :=
  ⟨t.ns + timedeltaNs (time_offset t longitude)⟩

/-- The `tst_decimal` local of `hour_angle`: decimal hour of day of the
true solar time, `hour + (minute + (second + microsecond·10⁻⁶)/60)/60`. -/
noncomputable def tst_decimal (t : Timestamp) (longitude : ℝ) : ℝ :=
  ((true_solar_time t longitude).hour : ℝ)
    + (((true_solar_time t longitude).minute : ℝ)
      + (((true_solar_time t longitude).second : ℝ)
        + ((true_solar_time t longitude).microsecond : ℝ) * (1 / 10 ^ 6)) / 60) / 60

/-- `hour_angle(datetime_object, longitude)`: `radians(15 (tst_decimal − 12))`. -/
noncomputable def hour_angle (t : Timestamp) (longitude : ℝ) : ℝ :=
  radians (15 * (tst_decimal t longitude - 12))

/-- `sza(datetime_object, latitude, longitude)`: solar zenith angle,
`arccos(sin(lat)·sin(decl) + cos(lat)·cos(decl)·cos(hour_angle))`
with no clamping of the argument. -/
noncomputable def sza (t : Timestamp) (latitude longitude : ℝ) : ℝ :=
  arccos (sin (radians latitude) * sin (declination t)
    + cos (radians latitude) * cos (declination t) * cos (hour_angle t longitude))

/-- `saz(datetime_object, latitude, longitude)`: solar azimuth angle,
unconditionally `2π − arccos((sin(decl)·cos(lat) − cos(hour_angle)·cos(decl)·sin(lat)) / sin(sza))`,
with no sign branch and no guard on the division. -/
noncomputable def saz (t : Timestamp) (latitude longitude : ℝ) : ℝ :=
  2 * π - arccos ((sin (declination t) * cos (radians latitude)
    - cos (hour_angle t longitude) * cos (declination t) * sin (radians latitude))
    / sin (sza t latitude longitude))

/-! ### The class (`lapup_solar_library_class.py`) -/

/-- The `SolarGeometry` value object: the three constructor arguments and
the three fields the constructor computes eagerly. -/
structure SolarGeometry where
  datetime_object : Timestamp
  latitude : ℝ
  longitude : ℝ
  fractional_year : ℝ
  declination : ℝ
  equation_of_time : ℝ

/-- `SolarGeometry.__init__`: stores the arguments unchecked and eagerly
computes `fractional_year`, `declination` and `equation_of_time` by the
same formulas as the function library, from the stored fractional year. -/
noncomputable def SolarGeometry.init (datetime_object : Timestamp)
    (latitude longitude : ℝ) : SolarGeometry :=
  let fy : ℝ := 2 * π * ((datetime_object.dayofyear : ℝ) - 1
    + ((datetime_object.hour : ℝ) - 12) / 24) / 365
  { datetime_object := datetime_object
    latitude := latitude
    longitude := longitude
    fractional_year := fy
    declination := 0.006918 - 0.399912 * cos fy + 0.070257 * sin fy
      - 0.006758 * cos (2 * fy) + 0.000907 * sin (2 * fy)
      - 0.002697 * cos (3 * fy) + 0.00148 * sin (3 * fy)
    equation_of_time := 229.18 * (0.000075 + 0.001868 * cos fy - 0.032077 * sin fy
      - 0.014615 * cos (2 * fy) - 0.040849 * sin (2 * fy)) }

/-! ### Attribute bounds -/

namespace Timestamp

lemma nsPerDay_pos : (0 : ℤ) < nsPerDay := by norm_num [nsPerDay]

lemma nsOfDay_nonneg (t : Timestamp) : 0 ≤ t.nsOfDay :=
  Int.emod_nonneg _ (by norm_num [nsPerDay])

lemma nsOfDay_lt (t : Timestamp) : t.nsOfDay < nsPerDay :=
  Int.emod_lt_of_pos _ nsPerDay_pos

lemma hour_nonneg (t : Timestamp) : 0 ≤ t.hour :=
  Int.ediv_nonneg (nsOfDay_nonneg t) (by norm_num)

lemma hour_le (t : Timestamp) : t.hour ≤ 23 := by
  have h1 : t.nsOfDay ≤ 86399999999999 := by
    have := nsOfDay_lt t; simp only [nsPerDay] at this; omega
  have h2 : t.nsOfDay / 3600000000000 ≤ 86399999999999 / 3600000000000 :=
    Int.ediv_le_ediv (by norm_num) h1
  simpa [hour] using h2.trans (by norm_num)

lemma minute_nonneg (t : Timestamp) : 0 ≤ t.minute :=
  Int.emod_nonneg _ (by norm_num)

lemma minute_le (t : Timestamp) : t.minute ≤ 59 := by
  have := Int.emod_lt_of_pos (t.nsOfDay / 60000000000) (by norm_num : (0:ℤ) < 60)
  simp only [minute]; omega

lemma second_nonneg (t : Timestamp) : 0 ≤ t.second :=
  Int.emod_nonneg _ (by norm_num)

lemma second_le (t : Timestamp) : t.second ≤ 59 := by
  have := Int.emod_lt_of_pos (t.nsOfDay / 1000000000) (by norm_num : (0:ℤ) < 60)
  simp only [second]; omega

lemma microsecond_nonneg (t : Timestamp) : 0 ≤ t.microsecond :=
  Int.emod_nonneg _ (by norm_num)

lemma microsecond_le (t : Timestamp) : t.microsecond ≤ 999999 := by
  have := Int.emod_lt_of_pos (t.nsOfDay / 1000) (by norm_num : (0:ℤ) < 1000000)
  simp only [microsecond]; omega

end Timestamp

/-! ### Range of the true-solar-time decimal hour and of the hour angle -/

lemma tst_decimal_nonneg (t : Timestamp) (lon : ℝ) : 0 ≤ tst_decimal t lon := by
  have h1 := (true_solar_time t lon).hour_nonneg
  have h2 := (true_solar_time t lon).minute_nonneg
  have h3 := (true_solar_time t lon).second_nonneg
  have h4 := (true_solar_time t lon).microsecond_nonneg
  have c1 : (0:ℝ) ≤ ((true_solar_time t lon).hour : ℝ) := by exact_mod_cast h1
  have c2 : (0:ℝ) ≤ ((true_solar_time t lon).minute : ℝ) := by exact_mod_cast h2
  have c3 : (0:ℝ) ≤ ((true_solar_time t lon).second : ℝ) := by exact_mod_cast h3
  have c4 : (0:ℝ) ≤ ((true_solar_time t lon).microsecond : ℝ) := by exact_mod_cast h4
  unfold tst_decimal
  positivity

lemma tst_decimal_lt (t : Timestamp) (lon : ℝ) : tst_decimal t lon < 24 := by
  have h1 := (true_solar_time t lon).hour_le
  have h2 := (true_solar_time t lon).minute_le
  have h3 := (true_solar_time t lon).second_le
  have h4 := (true_solar_time t lon).microsecond_le
  have c1 : ((true_solar_time t lon).hour : ℝ) ≤ 23 := by exact_mod_cast h1
  have c2 : ((true_solar_time t lon).minute : ℝ) ≤ 59 := by exact_mod_cast h2
  have c3 : ((true_solar_time t lon).second : ℝ) ≤ 59 := by exact_mod_cast h3
  have c4 : ((true_solar_time t lon).microsecond : ℝ) ≤ 999999 := by exact_mod_cast h4
  unfold tst_decimal
  nlinarith

lemma hour_angle_eq (t : Timestamp) (lon : ℝ) :
    hour_angle t lon = (tst_decimal t lon - 12) * (π / 12) := by
  unfold hour_angle radians; ring

/-! ### Exact evaluation when the fractional year is zero -/

lemma fractional_year_of_jan1_noon (t : Timestamp)
    (hd : t.dayofyear = 1) (hh : t.hour = 12) : fractional_year t = 0 := by
  unfold fractional_year
  rw [hd, hh]
  norm_num

lemma equation_of_time_of_fy_zero (t : Timestamp)
    (h : fractional_year t = 0) : equation_of_time t = -2.90416896 := by
  unfold equation_of_time
  rw [h]
  norm_num [Real.cos_zero, Real.sin_zero]

lemma declination_of_fy_zero (t : Timestamp)
    (h : fractional_year t = 0) : declination t = -0.402449 := by
  unfold declination
  rw [h]
  norm_num [Real.cos_zero, Real.sin_zero]

lemma pythonRound_of_17_div_15 : pythonRound ((17 : ℝ) / 15) = 1 := by
  have hfl : ⌊(17 : ℝ) / 15⌋ = 1 := by
    rw [Int.floor_eq_iff]
    norm_num
  have hf : Int.fract ((17 : ℝ) / 15) = 2 / 15 := by
    rw [Int.fract, hfl]
    norm_num
  unfold pythonRound
  rw [hf, if_pos (by norm_num), hfl]

lemma time_offset_at_17 (t : Timestamp)
    (h : fractional_year t = 0) : time_offset t 17 = -54.90416896 := by
  unfold time_offset timezone
  rw [equation_of_time_of_fy_zero t h, pythonRound_of_17_div_15]
  push_cast
  norm_num

lemma timedeltaNs_special : timedeltaNs (-54.90416896) = -3294250137600 := by
  have h : ((-54.90416896 : ℝ)) * 60000000000 = ((-3294250137600 : ℤ) : ℝ) := by
    norm_num
  rw [timedeltaNs, h, round_intCast]

lemma true_solar_time_special (t : Timestamp)
    (hd : t.dayofyear = 1) (hh : t.hour = 12) :
    true_solar_time t 17 = ⟨t.ns - 3294250137600⟩ := by
  unfold true_solar_time
  rw [time_offset_at_17 t (fractional_year_of_jan1_noon t hd hh), timedeltaNs_special]
  norm_num [sub_eq_add_neg]

/-! ### Concrete inputs used to exercise the azimuth code

`tZenith` is 1970-01-01 12:54:54.2501376 local time: day-of-year 1 and
hour 12, so its fractional year is exactly 0, and for longitude 17 the
time offset is exactly −54.90416896 minutes, so its true solar time is
exactly 12:00:00.  At latitude `latZenith` (the latitude whose radian
measure equals the declination) the sun then stands exactly at the
zenith: `sin (sza) = 0`. -/
def tZenith : Timestamp := ⟨46494250137600⟩

/-- The latitude (degrees) putting the sun of `tZenith` exactly at the zenith. -/
noncomputable def latZenith : ℝ := declination tZenith * 180 / π

/-- 1970-01-01 12:00:00: fractional year exactly 0; for longitude 17 its
true solar time is 11:05:05.749862400, a morning time (hour angle < 0). -/
def tMorning : Timestamp := ⟨43200000000000⟩

lemma true_solar_time_tZenith : true_solar_time tZenith 17 = ⟨43200000000000⟩ := by
  rw [show tZenith = ⟨46494250137600⟩ from rfl,
    true_solar_time_special ⟨46494250137600⟩ (by decide) (by decide)]
  norm_num [Timestamp.mk.injEq]

lemma tst_decimal_tZenith : tst_decimal tZenith 17 = 12 := by
  unfold tst_decimal
  rw [true_solar_time_tZenith]
  rw [show Timestamp.hour ⟨43200000000000⟩ = 12 from by decide,
    show Timestamp.minute ⟨43200000000000⟩ = 0 from by decide,
    show Timestamp.second ⟨43200000000000⟩ = 0 from by decide,
    show Timestamp.microsecond ⟨43200000000000⟩ = 0 from by decide]
  norm_num

lemma hour_angle_tZenith : hour_angle tZenith 17 = 0 := by
  unfold hour_angle radians
  rw [tst_decimal_tZenith]
  norm_num

lemma radians_latZenith : radians latZenith = declination tZenith := by
  unfold radians latZenith
  field_simp

lemma sza_tZenith : sza tZenith latZenith 17 = 0 := by
  unfold sza
  rw [radians_latZenith, hour_angle_tZenith, Real.cos_zero]
  rw [show sin (declination tZenith) * sin (declination tZenith)
      + cos (declination tZenith) * cos (declination tZenith) * 1 = 1 from by
    nlinarith [sin_sq_add_cos_sq (declination tZenith)]]
  exact arccos_one

lemma true_solar_time_tMorning : true_solar_time tMorning 17 = ⟨39905749862400⟩ := by
  rw [show tMorning = ⟨43200000000000⟩ from rfl,
    true_solar_time_special ⟨43200000000000⟩ (by decide) (by decide)]
  norm_num [Timestamp.mk.injEq]

lemma tst_decimal_tMorning_lt : tst_decimal tMorning 17 < 12 := by
  unfold tst_decimal
  rw [true_solar_time_tMorning]
  rw [show Timestamp.hour ⟨39905749862400⟩ = 11 from by decide,
    show Timestamp.minute ⟨39905749862400⟩ = 5 from by decide,
    show Timestamp.second ⟨39905749862400⟩ = 5 from by decide,
    show Timestamp.microsecond ⟨39905749862400⟩ = 749862 from by decide]
  norm_num

lemma hour_angle_tMorning_neg : hour_angle tMorning 17 < 0 := by
  rw [hour_angle_eq]
  exact mul_neg_of_neg_of_pos (by linarith [tst_decimal_tMorning_lt])
    (by positivity)

/-! ### The zenith-angle argument is within the domain of arccos -/

lemma abs_sphere_cos_le_one (a d x : ℝ) (h1 : -1 ≤ x) (h2 : x ≤ 1) :
    |sin a * sin d + cos a * cos d * x| ≤ 1 := by
  have hA := sin_sq_add_cos_sq a
  have hD := sin_sq_add_cos_sq d
  have hx : 0 ≤ (1 - x) * (1 + x) * (cos a)^2 :=
    mul_nonneg (mul_nonneg (by linarith) (by linarith)) (sq_nonneg _)
  rw [abs_le]
  constructor
  · nlinarith [sq_nonneg (sin a + sin d), sq_nonneg (cos a * x + cos d)]
  · nlinarith [sq_nonneg (sin a - sin d), sq_nonneg (cos a * x - cos d)]

/-! ### Day-carry arithmetic for timestamp shifts -/

lemma nsOfDay_shift (t : Timestamp) (d : ℤ) :
    Timestamp.nsOfDay ⟨t.ns + d⟩ = (t.nsOfDay + d) % Timestamp.nsPerDay := by
  unfold Timestamp.nsOfDay
  conv_lhs => rw [show t.ns = Timestamp.nsPerDay * (t.ns / Timestamp.nsPerDay)
    + t.ns % Timestamp.nsPerDay from (Int.ediv_add_emod t.ns _).symm]
  rw [show Timestamp.nsPerDay * (t.ns / Timestamp.nsPerDay) + t.ns % Timestamp.nsPerDay + d
    = t.ns % Timestamp.nsPerDay + d + (t.ns / Timestamp.nsPerDay) * Timestamp.nsPerDay from by ring]
  exact Int.add_mul_emod_self

lemma day_shift (t : Timestamp) (d : ℤ) :
    Timestamp.day ⟨t.ns + d⟩ = t.day + (t.nsOfDay + d) / Timestamp.nsPerDay := by
  unfold Timestamp.day Timestamp.nsOfDay
  conv_lhs => rw [show t.ns = Timestamp.nsPerDay * (t.ns / Timestamp.nsPerDay)
    + t.ns % Timestamp.nsPerDay from (Int.ediv_add_emod t.ns _).symm]
  rw [show Timestamp.nsPerDay * (t.ns / Timestamp.nsPerDay) + t.ns % Timestamp.nsPerDay + d
    = t.ns % Timestamp.nsPerDay + d + (t.ns / Timestamp.nsPerDay) * Timestamp.nsPerDay from by ring]
  rw [Int.add_mul_ediv_right _ _ (by norm_num [Timestamp.nsPerDay] : Timestamp.nsPerDay ≠ 0)]
  ring

/-! ### Claim theorems -/

/-- C1: the code has no morning/afternoon sign branch.  `saz`
unconditionally returns `2π − arccos(raw)`, so the azimuth always lies
in `[π, 2π]` — the western half plus south — even though genuinely
morning inputs (negative hour angle) exist, e.g. `tMorning` at
longitude 17.  The claimed eastern-half rule for `hourAngle < 0` is not
implemented. -/
theorem saz_always_upper_half :
    (∀ (t : Timestamp) (lat lon : ℝ),
      saz t lat lon = 2 * π - arccos ((sin (declination t) * cos (radians lat)
        - cos (hour_angle t lon) * cos (declination t) * sin (radians lat))
        / sin (sza t lat lon))
      ∧ π ≤ saz t lat lon ∧ saz t lat lon ≤ 2 * π)
    ∧ hour_angle tMorning 17 < 0 := by
  constructor
  · intro t lat lon
    refine ⟨rfl, ?_, ?_⟩
    · unfold saz
      have h := arccos_le_pi ((sin (declination t) * cos (radians lat)
        - cos (hour_angle t lon) * cos (declination t) * sin (radians lat))
        / sin (sza t lat lon))
      linarith
    · unfold saz
      have h := arccos_nonneg ((sin (declination t) * cos (radians lat)
        - cos (hour_angle t lon) * cos (declination t) * sin (radians lat))
        / sin (sza t lat lon))
      linarith
  · exact hour_angle_tMorning_neg

/-- C2: over exact real arithmetic the zenith-angle cosine
`sin(lat)·sin(decl) + cos(lat)·cos(decl)·cos(hourAngle)` always lies in
`[−1, 1]`, but `sza` passes it to `arccos` raw: the code contains no
clamp (the second conjunct is the entire computation, definitionally). -/
theorem sza_argument_in_arccos_domain (t : Timestamp) (lat lon : ℝ) :
    |sin (radians lat) * sin (declination t)
      + cos (radians lat) * cos (declination t) * cos (hour_angle t lon)| ≤ 1
    ∧ sza t lat lon = arccos (sin (radians lat) * sin (declination t)
      + cos (radians lat) * cos (declination t) * cos (hour_angle t lon)) :=
  ⟨abs_sphere_cos_le_one _ _ _ (neg_one_le_cos _) (cos_le_one _), rfl⟩

/-- C3: at the concrete degenerate input `tZenith`/`latZenith`/17 the
sun is exactly at the zenith (`sin (sza) = 0`), and the unguarded
division in `saz` executes anyway: under the exact-arithmetic semantics
of the embedding (division by zero gives 0) the code returns the
ordinary number `3π/2`, not a sentinel — there is no degenerate-case
guard in the code. -/
theorem saz_degenerate_returns_three_half_pi :
    sin (sza tZenith latZenith 17) = 0
    ∧ saz tZenith latZenith 17 = 3 * π / 2 := by
  have hs : sza tZenith latZenith 17 = 0 := sza_tZenith
  refine ⟨by rw [hs, Real.sin_zero], ?_⟩
  unfold saz
  rw [hs, Real.sin_zero, div_zero, arccos_zero]
  ring

/-- C4: the `SolarGeometry` constructor performs no latitude
validation: latitude 91 (outside `[−90, 90]`) is accepted and the
object is built with the ordinary field values — no `InvalidLatitude`
rejection exists anywhere in the code. -/
theorem solarGeometry_accepts_invalid_latitude :
    (SolarGeometry.init ⟨0⟩ 91 0).latitude = 91
    ∧ (SolarGeometry.init ⟨0⟩ 91 0).fractional_year = fractional_year ⟨0⟩
    ∧ (SolarGeometry.init ⟨0⟩ 91 0).declination = declination ⟨0⟩
    ∧ (SolarGeometry.init ⟨0⟩ 91 0).equation_of_time = equation_of_time ⟨0⟩ :=
  ⟨rfl, rfl, rfl, rfl⟩

/-- C5: `true_solar_time` shifts the timestamp by
`equation_of_time + 4·longitude − 60·(round(longitude/15) + 1)` minutes
(stored to the nearest nanosecond, the third conjunct), and the shift
carries calendar boundaries correctly: the nanosecond-of-day of the
result is the input's plus the shift modulo a day (i.e. minutes-of-day
mod 1440 at nanosecond resolution) and the day index absorbs exactly
the carry. -/
theorem true_solar_time_shift_and_carry (t : Timestamp) (lon : ℝ) :
    (true_solar_time t lon).ns = t.ns + timedeltaNs (time_offset t lon)
    ∧ time_offset t lon
      = equation_of_time t + 4 * lon - 60 * ((pythonRound (lon / 15) : ℝ) + 1)
    ∧ |(timedeltaNs (time_offset t lon) : ℝ) - time_offset t lon * 60000000000| ≤ 1 / 2
    ∧ (true_solar_time t lon).nsOfDay
      = (t.nsOfDay + timedeltaNs (time_offset t lon)) % Timestamp.nsPerDay
    ∧ (true_solar_time t lon).day
      = t.day + (t.nsOfDay + timedeltaNs (time_offset t lon)) / Timestamp.nsPerDay := by
  refine ⟨rfl, ?_, ?_, nsOfDay_shift t _, day_shift t _⟩
  · unfold time_offset timezone
    push_cast
    ring
  · unfold timedeltaNs
    rw [abs_sub_comm]
    exact abs_sub_round (time_offset t lon * 60000000000)

/-- C6: the hour angle is `radians(15 (tst_decimal − 12))`, always lies
in `[−π, π)`, is zero exactly at true solar noon, negative in the
morning and positive in the afternoon. -/
theorem hour_angle_formula_range_sign (t : Timestamp) (lon : ℝ) :
    hour_angle t lon = 15 * (tst_decimal t lon - 12) * π / 180
    ∧ -π ≤ hour_angle t lon ∧ hour_angle t lon < π
    ∧ (tst_decimal t lon = 12 → hour_angle t lon = 0)
    ∧ (tst_decimal t lon < 12 → hour_angle t lon < 0)
    ∧ (12 < tst_decimal t lon → 0 < hour_angle t lon) := by
  have he := hour_angle_eq t lon
  have h0 := tst_decimal_nonneg t lon
  have h24 := tst_decimal_lt t lon
  have hq : (0 : ℝ) < π / 12 := by positivity
  refine ⟨by unfold hour_angle radians; ring, ?_, ?_, ?_, ?_, ?_⟩
  · rw [he]; nlinarith
  · rw [he]; nlinarith
  · intro h; rw [he, h]; ring
  · intro h; rw [he]; exact mul_neg_of_neg_of_pos (by linarith) hq
  · intro h; rw [he]; exact mul_pos (by linarith) hq

/-- Witness for C6: a concrete morning input with `tst_decimal < 12`
whose hour angle the theorem proves negative. -/
theorem hour_angle_formula_range_sign_witness :
    tst_decimal tMorning 17 < 12 ∧ hour_angle tMorning 17 < 0 :=
  ⟨tst_decimal_tMorning_lt,
    (hour_angle_formula_range_sign tMorning 17).2.2.2.2.1 tst_decimal_tMorning_lt⟩

/-- C8: `fractional_year` is the stated total function of day-of-year
(1-based) and hour with the fixed 365-day divisor, and it is exactly 0
on January 1 at hour 12. -/
theorem fractional_year_formula_jan1 (t : Timestamp) :
    fractional_year t = 2 * π * (((t.dayofyear : ℝ) - 1) + ((t.hour : ℝ) - 12) / 24) / 365
    ∧ (t.dayofyear = 1 → t.hour = 12 → fractional_year t = 0) :=
  ⟨rfl, fun hd hh => fractional_year_of_jan1_noon t hd hh⟩

/-- Witness for C8: 1970-01-01 12:00:00 has day-of-year 1 and hour 12,
and its fractional year is 0. -/
theorem fractional_year_formula_jan1_witness :
    Timestamp.dayofyear tMorning = 1 ∧ Timestamp.hour tMorning = 12
    ∧ fractional_year tMorning = 0 :=
  ⟨by decide, by decide, (fractional_year_formula_jan1 tMorning).2 (by decide) (by decide)⟩

/-- C9: the fields the `SolarGeometry` constructor computes eagerly
coincide with the standalone library functions at the same timestamp. -/
theorem solarGeometry_fields_agree (t : Timestamp) (lat lon : ℝ) :
    (SolarGeometry.init t lat lon).fractional_year = fractional_year t
    ∧ (SolarGeometry.init t lat lon).declination = declination t
    ∧ (SolarGeometry.init t lat lon).equation_of_time = equation_of_time t :=
  ⟨rfl, rfl, rfl⟩

/-- C10: `fractional_year`, `declination` and `equation_of_time` depend
on the timestamp only through `dayofyear` and `hour`: minutes, seconds,
microseconds are discarded. -/
theorem depend_only_on_dayofyear_hour (t1 t2 : Timestamp)
    (hd : t1.dayofyear = t2.dayofyear) (hh : t1.hour = t2.hour) :
    fractional_year t1 = fractional_year t2
    ∧ declination t1 = declination t2
    ∧ equation_of_time t1 = equation_of_time t2 := by
  have hfy : fractional_year t1 = fractional_year t2 := by
    unfold fractional_year
    rw [hd, hh]
  exact ⟨hfy, by unfold declination; rw [hfy], by unfold equation_of_time; rw [hfy]⟩

/-- Witness for C10: 1970-01-01 00:00:00 and 00:30:00 differ in minutes
but agree on day-of-year and hour, and get identical outputs. -/
theorem depend_only_on_dayofyear_hour_witness :
    Timestamp.minute ⟨0⟩ ≠ Timestamp.minute ⟨1800000000000⟩
    ∧ (fractional_year ⟨0⟩ = fractional_year ⟨1800000000000⟩
      ∧ declination ⟨0⟩ = declination ⟨1800000000000⟩
      ∧ equation_of_time ⟨0⟩ = equation_of_time ⟨1800000000000⟩) :=
  ⟨by decide, depend_only_on_dayofyear_hour ⟨0⟩ ⟨1800000000000⟩ (by decide) (by decide)⟩

/-! ### Bounding the Spencer declination series

Writing `γ` for the fractional year, `s = sin γ`, `c = cos γ`, the
series equals `G(c) + s·H(c)` with `G` cubic and `H` quadratic; on the
unit circle `(s·H)² = (1−c²)·H²`, so the bound `|G + s·H| ≤ 0.41`
follows from `(1−c²)·H² ≤ (0.41 ∓ G)²` together with `0 ≤ 0.41 ∓ G`. -/

set_option maxHeartbeats 1600000 in
lemma spencer_upper_sq (c : ℝ) (h1 : -1 ≤ c) (h2 : c ≤ 1) :
    (1 - c^2) * (0.068777 + 0.001814*c + 0.00592*c^2)^2
      ≤ (0.41 - (0.013676 - 0.391821*c - 0.013516*c^2 - 0.010788*c^3))^2 := by
  nlinarith [sq_nonneg ((c + 0.985)^2), sq_nonneg (c + 0.985), sq_nonneg (c + 1),
    mul_nonneg (by linarith : (0:ℝ) ≤ c + 1) (by linarith : (0:ℝ) ≤ 1 - c),
    mul_nonneg (mul_nonneg (by linarith : (0:ℝ) ≤ c + 1)
      (by linarith : (0:ℝ) ≤ 1 - c)) (sq_nonneg (c + 0.985)),
    sq_nonneg ((c + 0.985) * (c + 1)), sq_nonneg ((c + 0.985) * (1 - c)),
    sq_nonneg (c^2 - 1)]

set_option maxHeartbeats 1600000 in
lemma spencer_lower_sq (c : ℝ) (h1 : -1 ≤ c) (h2 : c ≤ 1) :
    (1 - c^2) * (0.068777 + 0.001814*c + 0.00592*c^2)^2
      ≤ (0.41 + (0.013676 - 0.391821*c - 0.013516*c^2 - 0.010788*c^3))^2 := by
  nlinarith [sq_nonneg ((c - 0.99)^2), sq_nonneg (c - 0.99), sq_nonneg (c - 1),
    sq_nonneg (c + 1),
    mul_nonneg (by linarith : (0:ℝ) ≤ c + 1) (by linarith : (0:ℝ) ≤ 1 - c),
    mul_nonneg (mul_nonneg (by linarith : (0:ℝ) ≤ c + 1)
      (by linarith : (0:ℝ) ≤ 1 - c)) (sq_nonneg (c - 0.99)),
    sq_nonneg ((c - 0.99) * (c + 1)), sq_nonneg ((c - 0.99) * (1 - c)),
    sq_nonneg (c^2 - 1)]

lemma spencer_upper_lin (c : ℝ) (h1 : -1 ≤ c) (h2 : c ≤ 1) :
    0 ≤ 0.41 - (0.013676 - 0.391821*c - 0.013516*c^2 - 0.010788*c^3) := by
  nlinarith [mul_nonneg (by linarith : (0:ℝ) ≤ c + 1) (by linarith : (0:ℝ) ≤ 1 - c),
    sq_nonneg (c + 1), sq_nonneg (c - 1)]

lemma spencer_lower_lin (c : ℝ) (h1 : -1 ≤ c) (h2 : c ≤ 1) :
    0 ≤ 0.41 + (0.013676 - 0.391821*c - 0.013516*c^2 - 0.010788*c^3) := by
  nlinarith [mul_nonneg (by linarith : (0:ℝ) ≤ c + 1) (by linarith : (0:ℝ) ≤ 1 - c),
    sq_nonneg (c + 1), sq_nonneg (c - 1)]

set_option maxHeartbeats 1600000 in
lemma spencer_series_bound (s c : ℝ) (hsc : s^2 + c^2 = 1) :
    |0.006918 - 0.399912*c + 0.070257*s - 0.006758*(2*c^2 - 1) + 0.000907*(2*s*c)
      - 0.002697*(4*c^3 - 3*c) + 0.00148*(3*s - 4*s^3)| ≤ 0.41 := by
  have hc1 : -1 ≤ c := by nlinarith [sq_nonneg s, sq_nonneg (c+1)]
  have hc2 : c ≤ 1 := by nlinarith [sq_nonneg s, sq_nonneg (c-1)]
  have hs2 : s^2 = 1 - c^2 := by linarith
  have hE : 0.006918 - 0.399912*c + 0.070257*s - 0.006758*(2*c^2 - 1) + 0.000907*(2*s*c)
      - 0.002697*(4*c^3 - 3*c) + 0.00148*(3*s - 4*s^3)
      = (0.013676 - 0.391821*c - 0.013516*c^2 - 0.010788*c^3)
        + s * (0.068777 + 0.001814*c + 0.00592*c^2) := by
    linear_combination (-0.00592 * s) * hsc
  rw [hE, abs_le]
  have hsq : (s * (0.068777 + 0.001814*c + 0.00592*c^2))^2
      = (1 - c^2) * (0.068777 + 0.001814*c + 0.00592*c^2)^2 := by
    rw [mul_pow, hs2]
  constructor
  · nlinarith [spencer_lower_sq c hc1 hc2, spencer_lower_lin c hc1 hc2, hsq,
      sq_nonneg (s * (0.068777 + 0.001814*c + 0.00592*c^2)
        - (0.41 + (0.013676 - 0.391821*c - 0.013516*c^2 - 0.010788*c^3)))]
  · nlinarith [spencer_upper_sq c hc1 hc2, spencer_upper_lin c hc1 hc2, hsq,
      sq_nonneg (s * (0.068777 + 0.001814*c + 0.00592*c^2)
        + (0.41 - (0.013676 - 0.391821*c - 0.013516*c^2 - 0.010788*c^3)))]

/-- C7: for every timestamp the declination computed by the library
lies in `[−0.41, 0.41]` radians. -/
theorem declination_within_interval (t : Timestamp) :
    -0.41 ≤ declination t ∧ declination t ≤ 0.41 := by
  have h := spencer_series_bound (sin (fractional_year t)) (cos (fractional_year t))
    (sin_sq_add_cos_sq (fractional_year t))
  rw [abs_le] at h
  have he : declination t
      = 0.006918 - 0.399912*cos (fractional_year t) + 0.070257*sin (fractional_year t)
        - 0.006758*(2*cos (fractional_year t)^2 - 1)
        + 0.000907*(2*sin (fractional_year t)*cos (fractional_year t))
        - 0.002697*(4*cos (fractional_year t)^3 - 3*cos (fractional_year t))
        + 0.00148*(3*sin (fractional_year t) - 4*sin (fractional_year t)^3) := by
    unfold declination
    rw [cos_two_mul, sin_two_mul, cos_three_mul, sin_three_mul]
  rw [he]
  exact h
